import Mathlib

/-!
Verification development for the G2 View rendering pipeline and its
scale/coordinate coordination.  Each definition is a shallow embedding of the
corresponding TypeScript source; theorems settle the claims of the
specification against those definitions.

Conventions used throughout:
* JS numbers are modelled as rationals (`ℚ`) so that all arithmetic is exact.
* JS `undefined` / absent object keys are modelled with `Option`.
* JS objects used as string-keyed records become association lists or
  functions out of `String`.
-/

namespace G2

/-! ## Data filtering (`View.filterData`)

Source (src/src/visual/scale/index.ts, `View.filterData`):
```ts
public filterData(data: Data): Data {
  const { filters } = this.options;
  if (size(filters) === 0) { return data; }
  return filter(data, (datum: Datum) => {
    const fields = Object.keys(filters);
    return fields.every((field: string) => {
      const condition = filters[field];
      return condition(datum[field], datum);
    });
  });
}
```
A `Datum` is a JS row object: a string-keyed record whose lookups may be
`undefined`.  The `filters` record maps a field name to a predicate receiving
the row's value for that field and the row itself. -/

/-- A row of the data: field name to (possibly absent) value. -/
def Datum : Type := String → Option Int

/-- A per-field filter predicate: receives `datum[field]` and the datum. -/
def FilterCondition : Type := Option Int → Datum → Bool

/-- The `filters` record of `view.options`, as an association list
(field, condition); JS object keys are unique and iterate in insertion
order, which the list order mirrors. -/
def Filters : Type := List (String × FilterCondition)

/-- `fields.every(field => condition(datum[field], datum))` of the source. -/
def rowPasses (filters : Filters) (datum : Datum) : Bool :=
  filters.all (fun fc => fc.2 (datum fc.1) datum)

/-- Shallow embedding of `View.filterData`. -/
def filterData (filters : Filters) (data : List Datum) : List Datum :=
  if filters.length = 0 then data
  else data.filter (fun datum => rowPasses filters datum)

/-- C1: for every input data array and every set of per-field filter
predicates, `filterData` returns exactly the rows of the input (in input
order) for which every configured predicate — applied to that row's value for
the predicate's field and the row itself — returns true (AND across fields);
hence its size is at most the original, and with no filters configured it
returns the input unchanged. -/
theorem filterData_exact (filters : Filters) (data : List Datum) :
    filterData filters data = data.filter (fun datum => rowPasses filters datum) ∧
    (filterData filters data).length ≤ data.length ∧
    filterData [] data = data := by
  refine ⟨?_, ?_, by simp [filterData]⟩
  · by_cases h : filters.length = 0
    · rw [List.length_eq_zero] at h
      subst h
      simp [filterData, rowPasses, List.filter_true]
    · simp [filterData, h]
  · by_cases h : filters.length = 0
    · simp [filterData, h]
    · simp only [filterData, if_neg h]
      exact data.length_filter_le _

/-! ## Scale pool and scale key derivation (`View.createScale`, `View.getScaleKey`)

Source (src/src/visual/scale/index.ts):
```ts
private getScaleKey(field: string): string { return `${this.id}-${field}`; }

protected createScale(field, data, scaleDef, key?): Scale {
  const currentScaleDef = get(this.options.scales, [field]);
  const mergedScaleDef = { ...currentScaleDef, ...scaleDef };
  const defaultKey = key ? key : this.getScaleKey(field);
  if (this.parent) { return this.parent.createScale(field, data, mergedScaleDef, defaultKey); }
  return this.scalePool.createScale(field, data, mergedScaleDef, defaultKey);
}

public getScaleByField(field: string, key?: string): Scale {
  const defaultKey = key ? key : this.getScaleKey(field);
  return this.getRootView().scalePool.getScale(defaultKey);
}
```
Scale instances are modelled by allocation tokens (`Nat`), so JS object
identity of a scale instance is token equality. -/

/-- Modelled from the spec: the Scale Pool class (`src/chart/util/scale-pool.ts`
is not among the provided sources; spec section 4.1 describes its contract).
`createScale(field, data, scaleDef, key)`: if an entry for `key` exists it is
updated in place and the same instance is returned; otherwise a new Scale
Definition Wrapper is constructed, registered under `key`, and returned.
`getScale(key)` returns the registered instance or `undefined`. -/
structure ScalePool where
  entries : List (String × Nat)
  nextId : Nat

/-- A freshly constructed, empty scale pool. -/
def ScalePool.empty : ScalePool := ⟨[], 0⟩

/-- Modelled from the spec: `ScalePool.createScale` (existing key: update in
place, return the same instance; otherwise allocate and register a new one). -/
def ScalePool.createScale (p : ScalePool) (key : String) : ScalePool × Nat :=
  match p.entries.lookup key with
  | some inst => (p, inst)
  | none => (⟨(key, p.nextId) :: p.entries, p.nextId + 1⟩, p.nextId)

/-- Modelled from the spec: `ScalePool.getScale(key)`. -/
def ScalePool.getScale (p : ScalePool) (key : String) : Option Nat :=
  p.entries.lookup key

/-- `View.getScaleKey`: key derivation for the scale pool. -/
def getScaleKey (viewId field : String) : String :=
  viewId ++ "-" ++ field

/-- `key ? key : this.getScaleKey(field)`: JS truthiness of the optional
string key — an absent *or empty-string* key (the one falsy string) falls
back to the per-view default key. -/
def defaultScaleKey (viewId field : String) (key : Option String) : String :=
  match key with
  | some k => if k = "" then getScaleKey viewId field else k
  | none => getScaleKey viewId field

/-- `View.createScale`: walks the parent chain up to the root, carrying the
key computed at the calling view (`key ? key : this.getScaleKey(field)`, a
truthiness test re-run at every level), and creates the scale in the root
view's pool.  `viewId` is the calling view's id and `ancestors` its chain of
ancestor ids ending in the root (empty when the calling view is itself the
root).  The scale-definition merging of the source does not affect keys or
instance identity and is elided. -/
def viewCreateScale (viewId : String) (ancestors : List String) (field : String)
    (key : Option String) (pool : ScalePool) : ScalePool × Nat :=
  let defaultKey := defaultScaleKey viewId field key
  match ancestors with
  | [] => pool.createScale defaultKey
  | parentId :: rest => viewCreateScale parentId rest field (some defaultKey) pool

/-- `View.getScaleByField`: the same truthiness-defaulted key, looked up in
the root view's pool. -/
def viewGetScaleByField (viewId : String) (rootPool : ScalePool) (field : String)
    (key : Option String) : Option Nat :=
  rootPool.getScale (defaultScaleKey viewId field key)

theorem getScaleKey_ne_empty (viewId field : String) : getScaleKey viewId field ≠ "" := by
  intro h
  have h2 := congrArg String.data h
  simp only [getScaleKey, String.data_append] at h2
  have h3 : ("-" : String).data = [] := (List.append_eq_nil.mp
    (List.append_eq_nil.mp h2).1).2
  exact absurd h3 (by decide)

theorem defaultScaleKey_ne_empty (viewId field : String) (key : Option String) :
    defaultScaleKey viewId field key ≠ "" := by
  cases key with
  | none => exact getScaleKey_ne_empty viewId field
  | some k =>
      by_cases hk : k = ""
      · simp only [defaultScaleKey, if_pos hk]
        exact getScaleKey_ne_empty viewId field
      · simp only [defaultScaleKey, if_neg hk]
        exact hk

theorem defaultScaleKey_some_of_ne (viewId field s : String) (h : s ≠ "") :
    defaultScaleKey viewId field (some s) = s := by
  simp only [defaultScaleKey, if_neg h]

theorem viewCreateScale_eq_poolCreate (viewId : String) (ancestors : List String)
    (field : String) (key : Option String) (pool : ScalePool) :
    viewCreateScale viewId ancestors field key pool =
      pool.createScale (defaultScaleKey viewId field key) := by
  induction ancestors generalizing viewId key with
  | nil => rfl
  | cons parentId rest ih =>
      show viewCreateScale parentId rest field
        (some (defaultScaleKey viewId field key)) pool = _
      rw [ih, defaultScaleKey_some_of_ne parentId field _
        (defaultScaleKey_ne_empty viewId field key)]

theorem getScaleKey_inj_left {v1 v2 f : String} (h : getScaleKey v1 f = getScaleKey v2 f) :
    v1 = v2 := by
  have h2 : (v1 ++ "-" ++ f).data = (v2 ++ "-" ++ f).data := by
    rw [show v1 ++ "-" ++ f = v2 ++ "-" ++ f from h]
  simp only [String.data_append] at h2
  have h3 := List.append_left_injective ("-".data ++ f.data)
    (by simpa [List.append_assoc] using h2)
  exact String.ext h3

theorem pool_create_of_mem {pool : ScalePool} {key : String} {inst : Nat}
    (h : pool.entries.lookup key = some inst) :
    pool.createScale key = (pool, inst) := by
  unfold ScalePool.createScale
  rw [h]

theorem pool_create_of_not_mem {pool : ScalePool} {key : String}
    (h : pool.entries.lookup key = none) :
    pool.createScale key =
      (⟨(key, pool.nextId) :: pool.entries, pool.nextId + 1⟩, pool.nextId) := by
  unfold ScalePool.createScale
  rw [h]

theorem pool_lookup_after_create (pool : ScalePool) (key : String) :
    ((pool.createScale key).1).entries.lookup key = some (pool.createScale key).2 := by
  cases h : pool.entries.lookup key with
  | some inst => rw [pool_create_of_mem h]; exact h
  | none => rw [pool_create_of_not_mem h]; simp [List.lookup]

theorem pool_create_idem (pool : ScalePool) (key : String) :
    ((pool.createScale key).1).createScale key =
      ((pool.createScale key).1, (pool.createScale key).2) :=
  pool_create_of_mem (pool_lookup_after_create pool key)

/-- C2: `createScale` without an explicit key registers the scale under
`{calling view's id}-{field}` in the root pool (whatever the ancestor chain);
a second reference to the same field from the same view — e.g. a sibling
geometry during the same data pass — receives the identical instance, which
`getScaleByField` also returns; and two distinct views referencing the same
field without an explicit key obtain distinct instances (here: created from an
empty root pool), while an explicit common truthy (non-empty) key makes two
distinct views share one instance; an explicit empty-string key is falsy in
the source's `key ? key : this.getScaleKey(field)` test and falls back to the
per-view default key. -/
theorem createScale_key_sharing (v1 v2 f : String) (anc1 anc2 : List String)
    (hne : v1 ≠ v2) :
    -- key derivation: the key embeds the *calling* view's id
    (∀ pool : ScalePool, viewCreateScale v1 anc1 f none pool =
        pool.createScale (getScaleKey v1 f)) ∧
    -- same view, same field: the second creation returns the identical
    -- instance, and getScaleByField resolves to it
    (∀ pool : ScalePool,
      let r1 := viewCreateScale v1 anc1 f none pool
      let r2 := viewCreateScale v1 anc1 f none r1.1
      r2.2 = r1.2 ∧ r2.1 = r1.1 ∧
        viewGetScaleByField v1 r2.1 f none = some r1.2) ∧
    -- distinct views, same field, no explicit key: distinct instances
    (let s1 := viewCreateScale v1 anc1 f none ScalePool.empty
     let s2 := viewCreateScale v2 anc2 f none s1.1
     s2.2 ≠ s1.2) ∧
    -- an explicit shared truthy key yields the identical instance across views
    (∀ pool : ScalePool, ∀ k : String, k ≠ "" →
      let t1 := viewCreateScale v1 anc1 f (some k) pool
      let t2 := viewCreateScale v2 anc2 f (some k) t1.1
      t2.2 = t1.2) ∧
    -- an explicit empty-string key is falsy: it falls back to the default key
    (∀ pool : ScalePool, viewCreateScale v1 anc1 f (some "") pool =
        pool.createScale (getScaleKey v1 f)) := by
  refine ⟨?_, ?_, ?_, ?_, ?_⟩
  · intro pool
    rw [viewCreateScale_eq_poolCreate]
    rfl
  · intro pool
    simp only [viewCreateScale_eq_poolCreate, defaultScaleKey]
    have hid := pool_create_idem pool (getScaleKey v1 f)
    refine ⟨by rw [hid], by rw [hid], ?_⟩
    rw [hid]
    exact pool_lookup_after_create pool (getScaleKey v1 f)
  · simp only [viewCreateScale_eq_poolCreate, defaultScaleKey]
    have hkey : getScaleKey v2 f ≠ getScaleKey v1 f := fun h =>
      hne (getScaleKey_inj_left h).symm
    have h1 : ScalePool.empty.createScale (getScaleKey v1 f) =
        (⟨[(getScaleKey v1 f, 0)], 1⟩, 0) := pool_create_of_not_mem rfl
    rw [h1]
    have h2 : (⟨[(getScaleKey v1 f, 0)], 1⟩ : ScalePool).entries.lookup
        (getScaleKey v2 f) = none := by
      simp [List.lookup, beq_eq_false_iff_ne.mpr hkey]
    rw [pool_create_of_not_mem h2]
    simp
  · intro pool k hk
    simp only [viewCreateScale_eq_poolCreate,
      defaultScaleKey_some_of_ne v1 f k hk, defaultScaleKey_some_of_ne v2 f k hk]
    rw [pool_create_idem]
  · intro pool
    rw [viewCreateScale_eq_poolCreate]
    simp [defaultScaleKey]

/-- Witness for C2 at concrete inputs: views "view1" and "view2" (distinct),
field "year", empty ancestor chains.  -/
theorem createScale_key_sharing_witness :
    ("view1" : String) ≠ "view2" ∧
    (let s1 := viewCreateScale "view1" [] "year" none ScalePool.empty
     let s2 := viewCreateScale "view2" [] "year" none s1.1
     s2.2 ≠ s1.2) ∧
    (("shared" : String) ≠ "" ∧
      (let t1 := viewCreateScale "view1" [] "year" (some "shared") ScalePool.empty
       let t2 := viewCreateScale "view2" [] "year" (some "shared") t1.1
       t2.2 = t1.2)) := by
  refine ⟨by decide, ?_, by decide, ?_⟩
  · exact (createScale_key_sharing "view1" "view2" "year" [] [] (by decide)).2.2.1
  · exact (createScale_key_sharing "view1" "view2" "year" [] [] (by decide)).2.2.2.1
      ScalePool.empty "shared" (by decide)

/-! ## Coordinate instances and `isFullCircle`

A coordinate instance (owned by the Coordinate Controller; constructed by the
external coordinate library) carries a type tag, polar/transposition flags,
start/end angles and the pixel-box corners, and exposes `invert` mapping a
pixel point back to unit space.  Angles are stored in units of pi (the source
compares `endAngle - startAngle === Math.PI * 2`; in units of pi that is an
exact comparison with `2`, which keeps the arithmetic in rationals). -/

/-- A 2-D point with rational coordinates. -/
structure Pt where
  x : ℚ
  y : ℚ
deriving DecidableEq

/-- A coordinate instance, as consumed by the coordinate query utilities. -/
structure Coord where
  ctype : String
  isPolar : Bool
  isTransposed : Bool
  /-- start angle, in units of pi -/
  startAngle : ℚ
  /-- end angle, in units of pi -/
  endAngle : ℚ
  /-- start pixel corner -/
  start : Pt
  /-- end pixel corner -/
  stop : Pt
  /-- inverse mapping from pixel space to unit space -/
  invert : Pt → Pt

/-- `isFullCircle` (src/examples/... coordinate util):
```ts
export function isFullCircle(coordinate: Coordinate): boolean {
  if (coordinate.isPolar) {
    const { startAngle, endAngle } = coordinate;
    return endAngle - startAngle === Math.PI * 2;
  }
  return false;
}
``` -/
def isFullCircle (coord : Coord) : Bool :=
  if coord.isPolar then coord.endAngle - coord.startAngle == 2 else false

/-! ## Category scale range adjustment (`View.adjustCategoryScaleRange`)

Source (src/src/visual/scale/index.ts):
```ts
private adjustCategoryScaleRange() {
  const xyScales = [this.getXScale(), ...this.getYScales()].filter((e) => !!e);
  const coordinate = this.getCoordinate();
  const scaleOptions = this.options.scales;
  each(xyScales, (scale: Scale) => {
    const { field, values, isCategory, isIdentity } = scale;
    if (isCategory || isIdentity) {
      if (values && !get(scaleOptions, [field, 'range'])) {
        const count = values.length;
        let range;
        if (count === 1) {
          range = [0.5, 1];
        } else {
          let widthRatio = 1;
          let offset = 0;
          if (isFullCircle(coordinate)) {
            if (!coordinate.isTransposed) {
              range = [0, 1 - 1 / count];
            } else {
              widthRatio = get(this.theme, 'widthRatio.multiplePie', 1 / 1.3);
              offset = (1 / count) * widthRatio;
              range = [offset / 2, 1 - offset / 2];
            }
          } else {
            offset = 1 / count / 2;
            range = [offset, 1 - offset];
          }
        }
        scale.range = range;
      }
    }
  });
}
```
`widthRatio` below stands for the result of the `get(this.theme,
'widthRatio.multiplePie', 1 / 1.3)` lookup; `hasUserRange` for the truthiness
of `get(scaleOptions, [field, 'range'])`. -/

/-- The attributes of an x/y scale that `adjustCategoryScaleRange` consumes;
`values = none` models an undefined `values` attribute. -/
structure CatScale where
  field : String
  values : Option (List String)
  isCategory : Bool
  isIdentity : Bool
  range : List ℚ

/-- Per-scale body of `adjustCategoryScaleRange` (the source loops this over
`[getXScale(), ...getYScales()]`). -/
def adjustOneCategoryScaleRange (coord : Coord) (widthRatio : ℚ)
    (hasUserRange : Bool) (scale : CatScale) : CatScale :=
  if scale.isCategory || scale.isIdentity then
    match scale.values with
    | some values =>
      if hasUserRange then scale
      else
        let count : ℚ := values.length
        let range :=
          if values.length = 1 then [1/2, 1]
          else if isFullCircle coord then
            if !coord.isTransposed then [0, 1 - 1 / count]
            else
              let offset := 1 / count * widthRatio
              [offset / 2, 1 - offset / 2]
          else
            let offset := 1 / count / 2
            [offset, 1 - offset]
        { scale with range := range }
    | none => scale
  else scale

/-- C3: after the data pass, for an x/y scale classified as category or
identity with a non-empty values list and no user-configured range: a
single-value domain yields range [0.5, 1]; a full-circle non-transposed polar
coordinate yields [0, 1 - 1/n] for n categories; a full-circle transposed
coordinate yields [offset/2, 1 - offset/2] with offset = widthRatio/n from the
theme lookup; every other coordinate yields [1/(2n), 1 - 1/(2n)]. -/
theorem adjustCategoryScaleRange_spec (coord : Coord) (widthRatio : ℚ)
    (scale : CatScale) (vs : List String)
    (hcat : scale.isCategory = true ∨ scale.isIdentity = true)
    (hvals : scale.values = some vs) (_hne : vs ≠ []) :
    (vs.length = 1 →
      (adjustOneCategoryScaleRange coord widthRatio false scale).range = [1/2, 1]) ∧
    (1 < vs.length → isFullCircle coord = true → coord.isTransposed = false →
      (adjustOneCategoryScaleRange coord widthRatio false scale).range =
        [0, 1 - 1 / (vs.length : ℚ)]) ∧
    (1 < vs.length → isFullCircle coord = true → coord.isTransposed = true →
      (adjustOneCategoryScaleRange coord widthRatio false scale).range =
        [widthRatio / (vs.length : ℚ) / 2, 1 - widthRatio / (vs.length : ℚ) / 2]) ∧
    (1 < vs.length → isFullCircle coord = false →
      (adjustOneCategoryScaleRange coord widthRatio false scale).range =
        [1 / (2 * (vs.length : ℚ)), 1 - 1 / (2 * (vs.length : ℚ))]) := by
  have hc : (scale.isCategory || scale.isIdentity) = true := by
    rcases hcat with h | h <;> simp [h]
  refine ⟨?_, ?_, ?_, ?_⟩
  · intro h1
    simp [adjustOneCategoryScaleRange, hc, hvals, h1]
  · intro hlen hfc htr
    have h1 : vs.length ≠ 1 := by omega
    simp [adjustOneCategoryScaleRange, hc, hvals, h1, hfc, htr]
  · intro hlen hfc htr
    have h1 : vs.length ≠ 1 := by omega
    simp only [adjustOneCategoryScaleRange, hc, hvals, if_true, if_neg h1, hfc,
      htr, if_pos, Bool.not_true, Bool.false_eq_true, if_false]
    have hA : (1 : ℚ) / (vs.length : ℚ) * widthRatio / 2 =
        widthRatio / (vs.length : ℚ) / 2 := by ring
    rw [hA]
  · intro hlen hfc
    have h1 : vs.length ≠ 1 := by omega
    simp only [adjustOneCategoryScaleRange, hc, hvals, if_neg h1, hfc,
      Bool.false_eq_true, if_false, if_true]
    have hB : (1 : ℚ) / (vs.length : ℚ) / 2 = 1 / (2 * (vs.length : ℚ)) := by ring
    rw [hB]

/-- Witness for C3: a 4-category scale in a rectangular coordinate resolves
to range [0.125, 0.875]; a 5-category scale in a full-circle non-transposed
polar coordinate resolves to [0, 0.8]. -/
theorem adjustCategoryScaleRange_witness :
    (adjustOneCategoryScaleRange
      ⟨"rect", false, false, 0, 0, ⟨0, 0⟩, ⟨1, 1⟩, fun p => p⟩ (10/13) false
      ⟨"city", some ["a", "b", "c", "d"], true, false, []⟩).range = [1/8, 7/8] ∧
    (adjustOneCategoryScaleRange
      ⟨"polar", true, false, 0, 2, ⟨0, 0⟩, ⟨1, 1⟩, fun p => p⟩ (10/13) false
      ⟨"city", some ["a", "b", "c", "d", "e"], true, false, []⟩).range = [0, 4/5] := by
  constructor
  · have h := adjustCategoryScaleRange_spec
      ⟨"rect", false, false, 0, 0, ⟨0, 0⟩, ⟨1, 1⟩, fun p => p⟩ (10/13)
      ⟨"city", some ["a", "b", "c", "d"], true, false, []⟩ ["a", "b", "c", "d"]
      (Or.inl rfl) rfl (by decide)
    have h4 := h.2.2.2 (by decide) (by decide)
    rw [h4]
    norm_num
  · have h := adjustCategoryScaleRange_spec
      ⟨"polar", true, false, 0, 2, ⟨0, 0⟩, ⟨1, 1⟩, fun p => p⟩ (10/13)
      ⟨"city", some ["a", "b", "c", "d", "e"], true, false, []⟩ ["a", "b", "c", "d", "e"]
      (Or.inl rfl) rfl (by decide)
    have h5 := h.2.1 (by decide) (by simp [isFullCircle]) rfl
    rw [h5]
    norm_num

/-! ## Point-in-coordinate containment (`isPointInCoordinate`, `View.isPointInPlot`)

Source (coordinate util):
```ts
export function isPointInCoordinate(coordinate: Coordinate, point: Point) {
  let result = false;
  if (coordinate) {
    if (coordinate.type === 'theta') {
      const { start, end } = coordinate;
      result = isBetween(point.x, start.x, end.x) && isBetween(point.y, start.y, end.y);
    } else {
      const invertPoint = coordinate.invert(point);
      result = isBetween(invertPoint.x, 0, 1) && isBetween(invertPoint.y, 0, 1);
    }
  }
  return result;
}
```
and (src/src/visual/scale/index.ts):
```ts
public isPointInPlot(point: Point): boolean {
  return isPointInCoordinate(this.getCoordinate(), point);
}
public clear() {
  this.scalePool.clear();
  this.filteredData = [];
  this.coordinateInstance = undefined;
  ...
}
```
The coordinate argument may be `null`/`undefined`, modelled as `Option Coord`. -/

/-- Modelled from the spec: `isBetween` (src/util/helper.ts is not among the
provided sources; spec section 4.4 calls it an inclusive axis-aligned bounds
check): whether `value` lies between the two bounds, in either order. -/
def isBetween (value b1 b2 : ℚ) : Bool :=
  if min b1 b2 ≤ value ∧ value ≤ max b1 b2 then true else false

/-- Shallow embedding of `isPointInCoordinate`. -/
def isPointInCoordinate (coordinate : Option Coord) (point : Pt) : Bool :=
  match coordinate with
  | none => false
  | some c =>
    if c.ctype = "theta" then
      isBetween point.x c.start.x c.stop.x && isBetween point.y c.start.y c.stop.y
    else
      let invertPoint := c.invert point
      isBetween invertPoint.x 0 1 && isBetween invertPoint.y 0 1

/-- Modelled from the spec: a rectangular coordinate instance spanning the
pixel box from `start` to `stop` (coordinate instances come from the external
coordinate library; spec section 3 describes one as "a mapping between a unit
square ... and pixel bounding box").  Its `invert` is the affine inverse of
that mapping. -/
def cartesianCoord (start stop : Pt) : Coord :=
  { ctype := "rect", isPolar := false, isTransposed := false,
    startAngle := 0, endAngle := 0, start := start, stop := stop,
    invert := fun p => ⟨(p.x - start.x) / (stop.x - start.x),
                        (p.y - start.y) / (stop.y - start.y)⟩ }

/-- C6: for a coordinate of type 'theta', `isPointInCoordinate` is the
axis-aligned bounds check of the point against the stored start/end pixel
corners; for every other type it inverse-maps the point and checks both unit
coordinates lie in [0, 1]; in particular, for a rectangular coordinate
spanning the pixel box (0,0)-(100,100), the point (150,150) yields false and
(50,50) yields true. -/
theorem isPointInCoordinate_spec (c : Coord) (p : Pt) :
    (c.ctype = "theta" →
      isPointInCoordinate (some c) p =
        (isBetween p.x c.start.x c.stop.x && isBetween p.y c.start.y c.stop.y)) ∧
    (c.ctype ≠ "theta" →
      isPointInCoordinate (some c) p =
        (isBetween (c.invert p).x 0 1 && isBetween (c.invert p).y 0 1)) ∧
    isPointInCoordinate (some (cartesianCoord ⟨0, 0⟩ ⟨100, 100⟩)) ⟨150, 150⟩ = false ∧
    isPointInCoordinate (some (cartesianCoord ⟨0, 0⟩ ⟨100, 100⟩)) ⟨50, 50⟩ = true := by
  refine ⟨?_, ?_, ?_, ?_⟩
  · intro h
    simp [isPointInCoordinate, h]
  · intro h
    simp [isPointInCoordinate, h]
  · norm_num [isPointInCoordinate, cartesianCoord, isBetween]
  · norm_num [isPointInCoordinate, cartesianCoord, isBetween]

/-- Witness for C6: the theta branch applied at a concrete theta coordinate
spanning (0,0)-(10,10) with query point (5,5), and the non-theta branch at
the concrete rectangular coordinate. -/
theorem isPointInCoordinate_witness :
    isPointInCoordinate
        (some ⟨"theta", true, false, 0, 2, ⟨0, 0⟩, ⟨10, 10⟩, fun p => p⟩) ⟨5, 5⟩ =
      (isBetween 5 0 10 && isBetween 5 0 10) ∧
    isPointInCoordinate (some (cartesianCoord ⟨0, 0⟩ ⟨100, 100⟩)) ⟨150, 150⟩ = false := by
  constructor
  · exact (isPointInCoordinate_spec
      ⟨"theta", true, false, 0, 2, ⟨0, 0⟩, ⟨10, 10⟩, fun p => p⟩ ⟨5, 5⟩).1 rfl
  · exact (isPointInCoordinate_spec (cartesianCoord ⟨0, 0⟩ ⟨100, 100⟩) ⟨0, 0⟩).2.2.1

/-! ## View state for plot queries and `clear` (C10) -/

/-- The fields of a `View` that `isPointInPlot` and `clear` interact with.
At construction `coordinateInstance` is not assigned (it is only set by
`createCoordinate` during the data pass), modelled as `none`. -/
structure ViewState where
  coordinateInstance : Option Coord
  filteredData : List Datum
  scalePoolEntries : List (String × Nat)

/-- `View.clear`: drops all scale-pool entries, resets the filtered data and
resets the coordinate instance to undefined. -/
def viewClear (st : ViewState) : ViewState :=
  { st with coordinateInstance := none, filteredData := [], scalePoolEntries := [] }

/-- `View.isPointInPlot`: delegates to `isPointInCoordinate` on the view's
current coordinate instance. -/
def isPointInPlot (st : ViewState) (point : Pt) : Bool :=
  isPointInCoordinate st.coordinateInstance point

/-- C10: `isPointInCoordinate` is total in its coordinate argument — a
null/undefined coordinate yields false rather than a failure — hence
`isPointInPlot` returns false on a view whose coordinate instance is unset
(as before any render pass), and on a view after `clear()`, which resets the
coordinate instance to undefined. -/
theorem isPointInPlot_total (p : Pt) (st : ViewState) :
    isPointInCoordinate none p = false ∧
    (st.coordinateInstance = none → isPointInPlot st p = false) ∧
    (viewClear st).coordinateInstance = none ∧
    isPointInPlot (viewClear st) p = false := by
  refine ⟨rfl, ?_, rfl, rfl⟩
  intro h
  simp [isPointInPlot, h, isPointInCoordinate]

/-- Witness for C10 at a concrete unset view state and point. -/
theorem isPointInPlot_total_witness :
    isPointInPlot ⟨none, [], []⟩ ⟨3, 4⟩ = false :=
  (isPointInPlot_total ⟨3, 4⟩ ⟨none, [], []⟩).2.1 rfl

/-! ## Plot-scoped pointer events (`View.doPlotEvent`, `View.onCanvasEvent`)

Source (src/src/visual/scale/index.ts):
```ts
private onCanvasEvent = (evt: GEvent): void => {
  const name = evt.name;
  if (!name.includes(':')) {
    const e = this.createViewEvent(evt);
    this.doPlotEvent(e);
    this.emit(name, e);
  }
}

private doPlotEvent(e: Event) {
  const { type, x, y } = e;
  const point = { x, y };
  const ALL_EVENTS = ['mousedown', 'mouseup', 'mousemove', 'mouseleave',
    'mousewheel', 'touchstart', 'touchmove', 'touchend', 'touchcancel',
    'click', 'dblclick', 'contextmenu'];
  if (ALL_EVENTS.includes(type)) {
    const currentInPlot = this.isPointInPlot(point);
    if (currentInPlot) {
      const TYPE = `plot:${type}`;
      e.type = TYPE;
      this.emit(TYPE, e);
      if (type === 'mouseleave') { this.isPreMouseInPlot = false; }
    }
    if (type === 'mousemove') {
      if (this.isPreMouseInPlot && !currentInPlot) {
        e.type = PLOT_EVENTS.MOUSE_LEAVE;
        this.emit(PLOT_EVENTS.MOUSE_LEAVE, e);
      } else if (!this.isPreMouseInPlot && currentInPlot) {
        e.type = PLOT_EVENTS.MOUSE_ENTER;
        this.emit(PLOT_EVENTS.MOUSE_ENTER, e);
      }
      this.isPreMouseInPlot = currentInPlot;
    } else if (type === 'mouseleave') {
      if (this.isPreMouseInPlot) {
        e.type = PLOT_EVENTS.MOUSE_LEAVE;
        this.emit(PLOT_EVENTS.MOUSE_LEAVE, e);
        this.isPreMouseInPlot = false;
      }
    }
  }
}
```
`PLOT_EVENTS.MOUSE_ENTER = 'plot:mouseenter'` and
`PLOT_EVENTS.MOUSE_LEAVE = 'plot:mouseleave'` (src/constant.ts).  The state is
the sticky `isPreMouseInPlot` boolean; `currentInPlot` (the containment test
of the event point, section above) enters as a boolean argument.  The result
is the ordered list of emitted event names together with the new flag. -/

/-- The `ALL_EVENTS` list of `doPlotEvent`. -/
def plotAllEvents : List String :=
  ["mousedown", "mouseup", "mousemove", "mouseleave", "mousewheel",
   "touchstart", "touchmove", "touchend", "touchcancel", "click",
   "dblclick", "contextmenu"]

/-- Shallow embedding of `View.doPlotEvent`: from the sticky
previously-inside-plot flag, the event type and the containment of the event
point, the ordered list of emitted plot event names and the updated flag. -/
def doPlotEvent (pre : Bool) (etype : String) (currentInPlot : Bool) :
    List String × Bool :=
  if plotAllEvents.contains etype then
    let emitted1 := if currentInPlot then ["plot:" ++ etype] else []
    let pre1 := if currentInPlot && (etype == "mouseleave") then false else pre
    if etype = "mousemove" then
      let emitted2 :=
        if pre1 && !currentInPlot then ["plot:mouseleave"]
        else if !pre1 && currentInPlot then ["plot:mouseenter"]
        else []
      (emitted1 ++ emitted2, currentInPlot)
    else if etype = "mouseleave" then
      if pre1 then (emitted1 ++ ["plot:mouseleave"], false) else (emitted1, pre1)
    else (emitted1, pre1)
  else ([], pre)

/-- `View.onCanvasEvent`: only raw (non colon-delimited) canvas events reach
`doPlotEvent`; a delegated composite name leaves the plot state untouched and
emits no plot event. -/
def onCanvasEventPlot (pre : Bool) (name : String) (currentInPlot : Bool) :
    List String × Bool :=
  if name.data.contains (Char.ofNat 58) then ([], pre)
  else doPlotEvent pre name currentInPlot

/-- C7: for raw canvas pointer events: on a mousemove, `plot:mouseenter` is
emitted iff the sticky flag was false and the point is inside,
`plot:mouseleave` iff the flag was true and the point is outside, the flag is
then set to the current containment, and the generic `plot:mousemove` is
emitted iff the point is currently inside; on a mouseleave with the flag
true, exactly one `plot:mouseleave` is emitted in total and the flag is
reset; with the flag false no transition event fires and the flag stays
false; and for every event type in the gated list the generic `plot:<type>`
event is emitted whenever the point is currently inside the plot. -/
theorem doPlotEvent_spec (pre currentInPlot : Bool) :
    (("plot:mouseenter" ∈ (doPlotEvent pre "mousemove" currentInPlot).1) ↔
        (pre = false ∧ currentInPlot = true)) ∧
    (("plot:mouseleave" ∈ (doPlotEvent pre "mousemove" currentInPlot).1) ↔
        (pre = true ∧ currentInPlot = false)) ∧
    (doPlotEvent pre "mousemove" currentInPlot).2 = currentInPlot ∧
    (("plot:mousemove" ∈ (doPlotEvent pre "mousemove" currentInPlot).1) ↔
        currentInPlot = true) ∧
    ((doPlotEvent true "mouseleave" currentInPlot).1.count "plot:mouseleave" = 1 ∧
      (doPlotEvent true "mouseleave" currentInPlot).2 = false) ∧
    ((doPlotEvent false "mouseleave" currentInPlot).1.count "plot:mouseleave" =
        (if currentInPlot then 1 else 0) ∧
      (doPlotEvent false "mouseleave" currentInPlot).2 = false) ∧
    (∀ etype : String, etype ∈ plotAllEvents → currentInPlot = true →
      ("plot:" ++ etype) ∈ (doPlotEvent pre etype currentInPlot).1) := by
  refine ⟨?_, ?_, ?_, ?_, ?_, ?_, ?_⟩
  · cases pre <;> cases currentInPlot <;> simp [doPlotEvent, plotAllEvents]
  · cases pre <;> cases currentInPlot <;> simp [doPlotEvent, plotAllEvents]
  · cases pre <;> cases currentInPlot <;> simp [doPlotEvent, plotAllEvents]
  · cases pre <;> cases currentInPlot <;> simp [doPlotEvent, plotAllEvents]
  · cases currentInPlot <;> simp [doPlotEvent, plotAllEvents]
  · cases currentInPlot <;> simp [doPlotEvent, plotAllEvents]
  · intro etype hmem hin
    subst hin
    have hcontains : plotAllEvents.contains etype = true :=
      List.elem_eq_true_of_mem hmem
    by_cases hmove : etype = "mousemove"
    · subst hmove
      cases pre <;> simp [doPlotEvent, plotAllEvents]
    · by_cases hleave : etype = "mouseleave"
      · subst hleave
        cases pre <;> simp [doPlotEvent, plotAllEvents]
      · simp [doPlotEvent, hcontains, hmove, hleave, hmem]

/-- Witness for C7: a mousemove entering the plot from outside emits the
generic move event then the synthesized enter transition, and a click in the
gated list inside the plot emits `plot:click`. -/
theorem doPlotEvent_spec_witness :
    ("plot:mouseenter" ∈ (doPlotEvent false "mousemove" true).1) ∧
    ("plot:click" ∈ (doPlotEvent false "click" true).1) := by
  refine ⟨?_, ?_⟩
  · exact ((doPlotEvent_spec false true).1).mpr ⟨rfl, rfl⟩
  · exact (doPlotEvent_spec false true).2.2.2.2.2.2 "click" (by decide) rfl

/-- The colon gate of `onCanvasEvent`: a composite (colon-delimited) name is
not processed as a plot event. -/
theorem onCanvasEvent_colon_gate (pre inPlot : Bool) :
    onCanvasEventPlot pre "legend-item:click" inPlot = ([], pre) ∧
    onCanvasEventPlot pre "mousemove" inPlot = doPlotEvent pre "mousemove" inPlot := by
  constructor
  · have h : "legend-item:click".data.contains (Char.ofNat 58) = true := by decide
    simp [onCanvasEventPlot, h]
  · have h : "mousemove".data.contains (Char.ofNat 58) = false := by decide
    simp [onCanvasEventPlot, h]

/-! ## Child view creation (`View.createView`)

Source (src/src/visual/scale/index.ts):
```ts
public createView(cfg?: Partial<ViewCfg>): View {
  const sharedOptions = {
    data: this.options.data,
    scales: clone(this.options.scales),
    axes: clone(this.options.axes),
    coordinate: clone(this.coordinateController.getOption()),
    tooltip: clone(this.options.tooltip),
    legends: clone(this.options.legends),
    animate: this.options.animate,
    visible: this.visible,
  };
  ...
}
```
JS aliasing is made explicit with a small heap: object-valued options are
addresses into a store, `clone` (of the external util library) allocates a
fresh address holding an equal deep copy, and plain `data: this.options.data`
passes the parent's address unchanged.  Mutation is a store write; object
identity is address equality. -/

/-- A heap of JS objects: addresses to contents, plus an allocation
frontier.  Contents are modelled as integer lists (any mutable payload
works the same way). -/
structure Heap where
  store : Nat → List Int
  next : Nat

/-- Dereference. -/
def Heap.read (h : Heap) (r : Nat) : List Int := h.store r

/-- Mutate the object at `r` in place. -/
def Heap.write (h : Heap) (r : Nat) (v : List Int) : Heap :=
  { h with store := Function.update h.store r v }

/-- `clone(x)`: allocate a fresh object holding an equal deep copy. -/
def Heap.clone (h : Heap) (r : Nat) : Heap × Nat :=
  ({ store := Function.update h.store h.next (h.store r), next := h.next + 1 }, h.next)

/-- The option references of a view that `createView` propagates, plus the
by-value `animate` flag. -/
structure ViewOptionRefs where
  data : Nat
  scales : Nat
  axes : Nat
  coordinate : Nat
  tooltip : Nat
  legends : Nat
  animate : Bool

/-- Shallow embedding of the `sharedOptions` construction of
`View.createView`: `data` is passed by reference, the object-valued options
are cloned (in source order), `animate` is copied by value. -/
def createViewOptions (h : Heap) (parent : ViewOptionRefs) : Heap × ViewOptionRefs :=
  let c1 := h.clone parent.scales
  let c2 := c1.1.clone parent.axes
  let c3 := c2.1.clone parent.coordinate
  let c4 := c3.1.clone parent.tooltip
  let c5 := c4.1.clone parent.legends
  (c5.1,
   { data := parent.data, scales := c1.2, axes := c2.2, coordinate := c3.2,
     tooltip := c4.2, legends := c5.2, animate := parent.animate })

/-- Concrete parent heap for the counterexample: the parent's six
object-valued options live at addresses 0..5; its data array is [1, 2, 3]. -/
def c5Heap : Heap := ⟨fun r => if r = 0 then [1, 2, 3] else [], 6⟩

/-- Concrete parent option record for the counterexample. -/
def c5Parent : ViewOptionRefs := ⟨0, 1, 2, 3, 4, 5, true⟩

theorem clone_read_fresh (h : Heap) (r : Nat) :
    (h.clone r).1.read (h.clone r).2 = h.read r := by
  simp [Heap.clone, Heap.read]

theorem clone_read_old (h : Heap) (r a : Nat) (hne : a ≠ h.next) :
    (h.clone r).1.read a = h.read a := by
  simp [Heap.clone, Heap.read, Function.update_noteq hne]

theorem write_read_other (h : Heap) (r a : Nat) (v : List Int) (hne : a ≠ r) :
    (h.write r v).read a = h.read a := by
  simp [Heap.write, Heap.read, Function.update_noteq hne]

theorem write_read_same (h : Heap) (r : Nat) (v : List Int) :
    (h.write r v).read r = v := by
  simp [Heap.write, Heap.read]

/-- The option references produced by `createViewOptions`: the five clones
are allocated consecutively at the old frontier; `data`/`animate` are
copied directly. -/
theorem createViewOptions_refs (h : Heap) (p : ViewOptionRefs) :
    (createViewOptions h p).2 =
      ⟨p.data, h.next, h.next + 1, h.next + 2, h.next + 3, h.next + 4, p.animate⟩ := rfl

/-- Reads below the old allocation frontier are untouched by `createView`'s
cloning. -/
theorem createView_read_parent (h : Heap) (p : ViewOptionRefs) (a : Nat)
    (hlt : a < h.next) : (createViewOptions h p).1.read a = h.read a := by
  have e4 : a ≠ h.next + 4 := by omega
  have e3 : a ≠ h.next + 3 := by omega
  have e2 : a ≠ h.next + 2 := by omega
  have e1 : a ≠ h.next + 1 := by omega
  have e0 : a ≠ h.next := by omega
  simp only [createViewOptions]
  rw [clone_read_old _ _ _ e4, clone_read_old _ _ _ e3, clone_read_old _ _ _ e2,
    clone_read_old _ _ _ e1, clone_read_old _ _ _ e0]

theorem createView_read_scales_clone (h : Heap) (p : ViewOptionRefs) :
    (createViewOptions h p).1.read h.next = h.read p.scales := by
  have e4 : h.next ≠ h.next + 4 := by omega
  have e3 : h.next ≠ h.next + 3 := by omega
  have e2 : h.next ≠ h.next + 2 := by omega
  have e1 : h.next ≠ h.next + 1 := by omega
  simp only [createViewOptions]
  rw [clone_read_old _ _ _ e4, clone_read_old _ _ _ e3, clone_read_old _ _ _ e2,
    clone_read_old _ _ _ e1]
  exact clone_read_fresh h p.scales

theorem createView_read_coordinate_clone (h : Heap) (p : ViewOptionRefs)
    (hc : p.coordinate < h.next) :
    (createViewOptions h p).1.read (h.next + 2) = h.read p.coordinate := by
  have e4 : h.next + 2 ≠ h.next + 4 := by omega
  have e3 : h.next + 2 ≠ h.next + 3 := by omega
  have f1 : p.coordinate ≠ h.next + 1 := by omega
  have f0 : p.coordinate ≠ h.next := by omega
  simp only [createViewOptions]
  rw [clone_read_old _ _ _ e4, clone_read_old _ _ _ e3]
  have hfresh : ((((h.clone p.scales).1).clone p.axes).1.clone p.coordinate).1.read
      (h.next + 2) = (((h.clone p.scales).1).clone p.axes).1.read p.coordinate :=
    clone_read_fresh (((h.clone p.scales).1).clone p.axes).1 p.coordinate
  rw [hfresh, clone_read_old _ _ _ f1, clone_read_old _ _ _ f0]

theorem createView_read_tooltip_clone (h : Heap) (p : ViewOptionRefs)
    (ht : p.tooltip < h.next) :
    (createViewOptions h p).1.read (h.next + 3) = h.read p.tooltip := by
  have e4 : h.next + 3 ≠ h.next + 4 := by omega
  have f2 : p.tooltip ≠ h.next + 2 := by omega
  have f1 : p.tooltip ≠ h.next + 1 := by omega
  have f0 : p.tooltip ≠ h.next := by omega
  simp only [createViewOptions]
  rw [clone_read_old _ _ _ e4]
  have hfresh : (((((h.clone p.scales).1).clone p.axes).1.clone p.coordinate).1.clone
        p.tooltip).1.read (h.next + 3) =
      ((((h.clone p.scales).1).clone p.axes).1.clone p.coordinate).1.read p.tooltip :=
    clone_read_fresh ((((h.clone p.scales).1).clone p.axes).1.clone p.coordinate).1
      p.tooltip
  rw [hfresh, clone_read_old _ _ _ f2, clone_read_old _ _ _ f1, clone_read_old _ _ _ f0]

theorem createView_read_legends_clone (h : Heap) (p : ViewOptionRefs)
    (hl : p.legends < h.next) :
    (createViewOptions h p).1.read (h.next + 4) = h.read p.legends := by
  have f3 : p.legends ≠ h.next + 3 := by omega
  have f2 : p.legends ≠ h.next + 2 := by omega
  have f1 : p.legends ≠ h.next + 1 := by omega
  have f0 : p.legends ≠ h.next := by omega
  simp only [createViewOptions]
  have hfresh : ((((((h.clone p.scales).1).clone p.axes).1.clone p.coordinate).1.clone
        p.tooltip).1.clone p.legends).1.read (h.next + 4) =
      (((((h.clone p.scales).1).clone p.axes).1.clone p.coordinate).1.clone
        p.tooltip).1.read p.legends :=
    clone_read_fresh
      (((((h.clone p.scales).1).clone p.axes).1.clone p.coordinate).1.clone p.tooltip).1
      p.legends
  rw [hfresh, clone_read_old _ _ _ f3, clone_read_old _ _ _ f2, clone_read_old _ _ _ f1,
    clone_read_old _ _ _ f0]

/-- C5 counterexample: the child produced by `createView` holds the *same*
`data` reference as the parent, so mutating the child's data afterwards does
mutate the parent's — refuting the claim that the child's `data` is an
independent cloned copy. -/
theorem createView_data_shared_counterexample :
    (createViewOptions c5Heap c5Parent).2.data = c5Parent.data ∧
    c5Heap.read c5Parent.data = [1, 2, 3] ∧
    ((createViewOptions c5Heap c5Parent).1.write
        ((createViewOptions c5Heap c5Parent).2.data) [9]).read c5Parent.data = [9] := by
  refine ⟨rfl, rfl, ?_⟩
  rw [createViewOptions_refs]
  exact write_read_same _ _ _

/-- C5 (amended): the child view receives the parent's `scales`,
`coordinate`, `tooltip` and `legends` options as independent cloned copies —
fresh references with equal contents at creation time, whose later mutation
through the child leaves the parent's option unchanged — and `animate` by
value; the parent's `data` however is passed by reference (not cloned), so
the child and parent share one data array. -/
theorem createView_clone_independence (h : Heap) (p : ViewOptionRefs)
    (hs : p.scales < h.next) (hc : p.coordinate < h.next)
    (ht : p.tooltip < h.next) (hl : p.legends < h.next) :
    ((createViewOptions h p).2.scales ≠ p.scales ∧
      (createViewOptions h p).1.read (createViewOptions h p).2.scales = h.read p.scales) ∧
    ((createViewOptions h p).2.coordinate ≠ p.coordinate ∧
      (createViewOptions h p).1.read (createViewOptions h p).2.coordinate =
        h.read p.coordinate) ∧
    ((createViewOptions h p).2.tooltip ≠ p.tooltip ∧
      (createViewOptions h p).1.read (createViewOptions h p).2.tooltip =
        h.read p.tooltip) ∧
    ((createViewOptions h p).2.legends ≠ p.legends ∧
      (createViewOptions h p).1.read (createViewOptions h p).2.legends =
        h.read p.legends) ∧
    (∀ v, ((createViewOptions h p).1.write (createViewOptions h p).2.scales v).read
        p.scales = h.read p.scales) ∧
    (∀ v, ((createViewOptions h p).1.write (createViewOptions h p).2.coordinate v).read
        p.coordinate = h.read p.coordinate) ∧
    (∀ v, ((createViewOptions h p).1.write (createViewOptions h p).2.tooltip v).read
        p.tooltip = h.read p.tooltip) ∧
    (∀ v, ((createViewOptions h p).1.write (createViewOptions h p).2.legends v).read
        p.legends = h.read p.legends) ∧
    (createViewOptions h p).2.animate = p.animate ∧
    (createViewOptions h p).2.data = p.data := by
  rw [createViewOptions_refs]
  dsimp only
  refine ⟨⟨by omega, ?_⟩, ⟨by omega, ?_⟩, ⟨by omega, ?_⟩, ⟨by omega, ?_⟩,
    ?_, ?_, ?_, ?_, rfl, rfl⟩
  · exact createView_read_scales_clone h p
  · exact createView_read_coordinate_clone h p hc
  · exact createView_read_tooltip_clone h p ht
  · exact createView_read_legends_clone h p hl
  · intro v
    rw [write_read_other _ _ _ _ (by omega : p.scales ≠ h.next)]
    exact createView_read_parent h p p.scales hs
  · intro v
    rw [write_read_other _ _ _ _ (by omega : p.coordinate ≠ h.next + 2)]
    exact createView_read_parent h p p.coordinate hc
  · intro v
    rw [write_read_other _ _ _ _ (by omega : p.tooltip ≠ h.next + 3)]
    exact createView_read_parent h p p.tooltip ht
  · intro v
    rw [write_read_other _ _ _ _ (by omega : p.legends ≠ h.next + 4)]
    exact createView_read_parent h p p.legends hl

/-- Witness for C5 at the concrete parent heap. -/
theorem createView_clone_independence_witness :
    (createViewOptions c5Heap c5Parent).2.scales ≠ c5Parent.scales ∧
    (∀ v, ((createViewOptions c5Heap c5Parent).1.write
        (createViewOptions c5Heap c5Parent).2.scales v).read c5Parent.scales =
      c5Heap.read c5Parent.scales) := by
  have h := createView_clone_independence c5Heap c5Parent
    (by decide) (by decide) (by decide) (by decide)
  exact ⟨h.1.1, h.2.2.2.2.1⟩

/-! ## Configuration errors (`View.facet`, `View.option`)

Source (src/src/visual/scale/index.ts):
```ts
public facet<T extends keyof FacetCfgMap>(type: T, cfg: FacetCfgMap[T]) {
  if (this.facetInstance) { this.facetInstance.destroy(); }
  const Ctor = getFacet(type);
  if (!Ctor) { throw new Error(`facet '${type}' is not exist!`); }
  this.facetInstance = new Ctor(this, { ...cfg, type });
  return this;
}

public option(name: string, opt: any): View {
  if (View.prototype[name]) {
    throw new Error(`Can not use built in variable name "${name}", ...`);
  }
  set(this.options, name, opt);
  return this;
}
```
A JS `throw` aborts the method but keeps every mutation already performed, so
`viewFacet` returns the post-call state *and* an optional thrown error. -/

/-- A facet instance: its type tag and whether `destroy()` has run on it. -/
structure FacetInst where
  ftype : String
  destroyed : Bool
deriving DecidableEq

/-- The view state `facet` and `option` interact with: the options record
(name to stored value) and the current facet instance. -/
structure ConfigState where
  options : List (String × Int)
  facetInstance : Option FacetInst
deriving DecidableEq

/-- The methods defined on `View.prototype` by the source class (TypeScript
`private`/`protected` members are still prototype properties at runtime;
instance arrow-function fields such as `onCanvasEvent` are not included, nor
are inherited members, which only widen the colliding set). -/
def viewPrototypeNames : List String :=
  ["setLayout", "init", "render", "clear", "destroy", "changeVisible", "data",
   "filter", "axis", "legend", "scale", "tooltip", "annotation", "coordinate",
   "facet", "animate", "updateOptions", "option", "theme", "interaction",
   "removeInteraction", "changeData", "createView", "removeView",
   "getCoordinate", "getTheme", "getXScale", "getYScales", "getScalesByDim",
   "getScaleByField", "getOptions", "getData", "getLayer", "isPointInPlot",
   "getLegendAttributes", "getGroupScales", "getCanvas", "getRootView",
   "getXY", "getController", "showTooltip", "hideTooltip", "lockTooltip",
   "unlockTooltip", "isTooltipLocked", "getTooltipItems", "getComponents",
   "filterData", "filterFieldData", "adjustCoordinate", "paint",
   "createScale", "calculateViewBBox", "createViewEventCaptureRect",
   "initEvents", "initComponentController", "createViewEvent",
   "doPlotEvent", "initGeometries", "createOrUpdateScales", "syncScale",
   "getGeometryScales", "getScaleFields", "getGroupedFields", "adjustScales",
   "adjustCategoryScaleRange", "initComponents", "doLayout",
   "createCoordinate", "paintGeometries", "renderComponents", "renderFacet",
   "initOptions", "createGeometry", "getScaleKey", "addGeometry",
   "renderDataRecursive", "renderLayoutRecursive", "renderPaintRecursive"]

/-- `View.option`: rejects names colliding with a prototype method before any
mutation; otherwise stores the value in the options record. -/
def viewOption (st : ConfigState) (name : String) (opt : Int) :
    Except String ConfigState :=
  if viewPrototypeNames.contains name then
    Except.error ("cannot use built in variable name " ++ name)
  else
    Except.ok { st with options := (name, opt) :: st.options }

/-- `View.facet`: destroys any previous facet instance, then looks the type
up in the facet registry (`getFacet`); an unregistered type throws, leaving
the already-performed destroy in place; a registered one installs a fresh
facet instance.  `reg` is the registry membership test. -/
def viewFacet (reg : String → Bool) (st : ConfigState) (ftype : String) :
    ConfigState × Option String :=
  let st1 :=
    match st.facetInstance with
    | some f => { st with facetInstance := some { f with destroyed := true } }
    | none => st
  if reg ftype then
    ({ st1 with facetInstance := some ⟨ftype, false⟩ }, none)
  else
    (st1, some ("facet " ++ ftype ++ " is not exist"))

/-- C9 counterexample: calling `facet` with an unregistered type on a view
that already holds a (live) facet instance throws — but the view's state has
already been mutated by the time the error is thrown: the previous facet
instance was destroyed first.  This refutes the claim that no partial
mutation of the view's state has occurred. -/
theorem facet_error_mutation_counterexample :
    (viewFacet (fun _ => false) ⟨[("data", 1)], some ⟨"rect", false⟩⟩ "bogus").2.isSome
        = true ∧
    (viewFacet (fun _ => false) ⟨[("data", 1)], some ⟨"rect", false⟩⟩ "bogus").1 ≠
      ⟨[("data", 1)], some ⟨"rect", false⟩⟩ := by
  constructor
  · rfl
  · intro h
    have h2 := congrArg ConfigState.facetInstance h
    simp [viewFacet] at h2

/-- C9 (amended): `facet` with an unregistered type and `option` with a
prototype-colliding name both fail by synchronously throwing an error that
propagates to the caller, and the view's options record is unchanged by
either failing call; `option` performs no mutation at all, and the failing
`facet` call's only mutation is having destroyed the previously installed
facet instance (none when no facet was installed). -/
theorem config_errors_spec (reg : String → Bool) (st : ConfigState)
    (ftype name : String) (opt : Int) (hreg : reg ftype = false)
    (hname : viewPrototypeNames.contains name = true) :
    ((viewFacet reg st ftype).2.isSome = true ∧
      (viewFacet reg st ftype).1.options = st.options ∧
      (st.facetInstance = none → (viewFacet reg st ftype).1 = st) ∧
      (∀ f, st.facetInstance = some f →
        (viewFacet reg st ftype).1 =
          { st with facetInstance := some { f with destroyed := true } })) ∧
    viewOption st name opt =
      Except.error ("cannot use built in variable name " ++ name) := by
  refine ⟨⟨?_, ?_, ?_, ?_⟩, ?_⟩
  · cases hf : st.facetInstance <;> simp [viewFacet, hreg, hf]
  · cases hf : st.facetInstance <;> simp [viewFacet, hreg, hf]
  · intro hf
    simp [viewFacet, hreg, hf]
  · intro f hf
    simp [viewFacet, hreg, hf]
  · simp [viewOption, List.mem_of_elem_eq_true hname]

/-- Witness for C9: registry containing only "rect", a view holding a live
"rect" facet and one option entry, failing calls `facet("bogus")` and
`option("filter")`. -/
theorem config_errors_spec_witness :
    ((fun t => t == "rect") "bogus" = false) ∧
    (viewPrototypeNames.contains "filter" = true) ∧
    (viewFacet (fun t => t == "rect")
        ⟨[("data", 1)], some ⟨"rect", false⟩⟩ "bogus").2.isSome = true ∧
    (viewFacet (fun t => t == "rect")
        ⟨[("data", 1)], some ⟨"rect", false⟩⟩ "bogus").1.options = [("data", 1)] ∧
    viewOption ⟨[("data", 1)], some ⟨"rect", false⟩⟩ "filter" 7 =
      Except.error ("cannot use built in variable name " ++ "filter") := by
  have h := config_errors_spec (fun t => t == "rect")
    ⟨[("data", 1)], some ⟨"rect", false⟩⟩ "bogus" "filter" 7 (by decide) (by decide)
  exact ⟨by decide, by decide, h.1.1, h.1.2.1, h.2⟩

/-! ## The Scale Definition Wrapper (`ScaleDef`)

Source (src/src/visual/scale/index.ts):
```ts
public update(updateOptions: Partial<ScaleDefOptions>) {
  this.updateScaleType(updateOptions);   // fresh scale when type differs
  this.updateOptions(updateOptions);     // merge over current, then over defaults
  this.updateScaleOptions(updateOptions);// scale.update({...options, domain: generateDomain(...), tickMethod: ...})
  this.updateExtent();                   // continuous: min/max := getOption('domain') endpoints
  this.updateTicks();                    // tickValues := calculateTickValues().map(transform)
}

private generateDomain(updateOptions) {
  const { min, max, domain } = updateOptions;
  const { transform } = this.getOptions();
  const transformedDomain = domain ? domain.map(transform) : (this.getOption('domain') as []);
  const last = transformedDomain.length - 1;
  if (min) transformedDomain[0] = transform(min);
  if (max) transformedDomain[last] = transform(max);
  return transformedDomain;
}

private updateExtent() {
  if (!this.isContinuous()) return;
  const domain = this.getOption('domain');
  this.options.max = domain[domain.length - 1];
  this.options.min = domain[0];
}
```
Modelling decisions, each visible in the definitions below:
* Scale values are rationals; the options record is split into explicit
  fields; absent keys are `none`.  JS truthiness of `min`/`max` (`if (min)`)
  is `some v` with `v ≠ 0`.
* `generateDomain` mutates `transformedDomain` *in place*.  When
  `updateOptions.domain` is absent, that array is the very object stored in
  `this.options.domain` (when present) — the merged `this.options` aliases
  it — so the override writes back into the options-level domain; when an
  explicit `domain` array is supplied, `.map(transform)` allocates a fresh
  array and the raw supplied array stays in `this.options.domain`
  un-overridden.  The functional update below reproduces exactly this
  aliasing.
* A JS assignment `arr[0] = x` on an empty array grows it to `[x]`; an
  assignment at index `-1` (`last` of an empty array) adds a plain property
  and leaves the elements unchanged.
* The underlying scale instance and its tick methods are the external scale
  library; they enter as a deterministic `ScaleBackend` (mapping and tick
  generation as functions of the scale's resolved domain).  The
  explicit-`ticks` branch of `generateTickMethod` (`if (ticks) return () =>
  ticks`) is modelled exactly; the named/default tick methods are the
  backend's generator. -/

/-- The fixed set of continuous scale types (`isContinuous`). -/
def continuousTypes : List String := ["linear", "log", "pow", "sqrt", "time"]

/-- Modelled from the spec: behaviour of the external scale-math library
(out of scope, consumed through `map`/`getTicks`): the underlying mapping
and the tick generation, deterministic in the scale's resolved domain. -/
structure ScaleBackend where
  smap : List ℚ → ℚ → ℚ
  tickGen : List ℚ → List ℚ

/-- The state of a `ScaleDef`: merged options (type, transform, formatter,
domain/min/max/ticks) plus the underlying scale's resolved domain and the
cached post-transform tick values. -/
structure ScaleDefState where
  stype : String
  transform : ℚ → ℚ
  formatter : Option (ℚ → String)
  optsDomain : Option (List ℚ)
  optsMin : Option ℚ
  optsMax : Option ℚ
  optsTicks : Option (List ℚ)
  scaleDomain : List ℚ
  tickValues : List ℚ

/-- A partial options object passed to `update`. -/
structure UpdateOpts where
  stype : Option String
  transform : Option (ℚ → ℚ)
  formatter : Option (ℚ → String)
  domain : Option (List ℚ)
  min : Option ℚ
  max : Option ℚ
  ticks : Option (List ℚ)

/-- The empty partial options object `{}`. -/
def UpdateOpts.empty : UpdateOpts := ⟨none, none, none, none, none, none, none⟩

/-- JS truthiness of an optional numeric option (`if (min) ...`). -/
def truthyQ : Option ℚ → Bool
  | none => false
  | some v => v != 0

/-- Modelled from the spec: the default domain of a freshly constructed
underlying scale instance (`createScaleByType` and the scale classes are the
external scale library). -/
def freshScaleDomain : List ℚ := [0, 1]

/-- `ScaleDef.generateDomain`, including the in-place index assignments:
`currentDomain` is `this.getOption('domain')`, used when no explicit domain
is supplied. -/
def generateDomain (transform : ℚ → ℚ) (updDomain : Option (List ℚ))
    (updMin updMax : Option ℚ) (currentDomain : List ℚ) : List ℚ :=
  let transformedDomain :=
    match updDomain with
    | some d => d.map transform
    | none => currentDomain
  let last := transformedDomain.length - 1
  let afterMin :=
    if truthyQ updMin then
      if transformedDomain.isEmpty then [transform (updMin.getD 0)]
      else transformedDomain.set 0 (transform (updMin.getD 0))
    else transformedDomain
  if truthyQ updMax && !transformedDomain.isEmpty then
    afterMin.set last (transform (updMax.getD 0))
  else afterMin

/-- `ScaleDef.update`: type swap, option merge, domain regeneration (with
its aliasing back into the options-level domain), extent bookkeeping for
continuous types, tick recomputation — in the source's fixed order. -/
def scaleDefUpdate (backend : ScaleBackend) (st : ScaleDefState)
    (upd : UpdateOpts) : ScaleDefState :=
  -- updateScaleType: an explicit differing type constructs a fresh scale
  let typeChanged :=
    match upd.stype with
    | some t => t != st.stype
    | none => false
  let stype1 := upd.stype.getD st.stype
  let scaleDomain0 := if typeChanged then freshScaleDomain else st.scaleDomain
  -- updateOptions: merge update over current (defaults already present)
  let transform1 := upd.transform.getD st.transform
  let formatter1 :=
    match upd.formatter with
    | some f => some f
    | none => st.formatter
  let optsDomainMerged :=
    match upd.domain with
    | some d => some d
    | none => st.optsDomain
  let optsTicks1 :=
    match upd.ticks with
    | some ts => some ts
    | none => st.optsTicks
  -- updateScaleOptions: resolve the domain and push it into the scale
  let currentDomain := optsDomainMerged.getD scaleDomain0
  let resolved := generateDomain transform1 upd.domain upd.min upd.max currentDomain
  -- aliasing: without an explicit domain the in-place overrides land in the
  -- options-level array too; an explicit domain keeps its raw value there
  let optsDomain2 :=
    match upd.domain, optsDomainMerged with
    | some d, _ => some d
    | none, some _ => some resolved
    | none, none => none
  -- updateExtent: continuous types mirror getOption('domain') endpoints
  let effDomain := optsDomain2.getD resolved
  let continuous := continuousTypes.contains stype1
  let optsMin1 :=
    if continuous then effDomain.head?
    else match upd.min with
      | some v => some v
      | none => st.optsMin
  let optsMax1 :=
    if continuous then effDomain.getLast?
    else match upd.max with
      | some v => some v
      | none => st.optsMax
  -- updateTicks: calculateTickValues().map(transform)
  let rawTicks :=
    match optsTicks1 with
    | some ts => ts
    | none => backend.tickGen resolved
  ⟨stype1, transform1, formatter1, optsDomain2, optsMin1, optsMax1, optsTicks1,
   resolved, rawTicks.map transform1⟩

/-- The state before the constructor's first `update` call: no options, no
scale; the default transform is the identity. -/
def initialScaleDefState : ScaleDefState :=
  ⟨"", fun v => v, none, none, none, none, none, freshScaleDomain, []⟩

/-- `new ScaleDef(options)`: runs `update({ type: 'identity', ...options })`. -/
def scaleDefNew (backend : ScaleBackend) (options : UpdateOpts) : ScaleDefState :=
  scaleDefUpdate backend initialScaleDefState
    { options with stype := some (options.stype.getD "identity") }

/-- `ScaleDef.getText`: user formatter if present, else string coercion. -/
def scaleDefGetText (st : ScaleDefState) (v : ℚ) : String :=
  match st.formatter with
  | some f => f v
  | none => toString v

/-- `ScaleDef.map`: apply the transform, then the underlying mapping. -/
def scaleDefMap (backend : ScaleBackend) (st : ScaleDefState) (v : ℚ) : ℚ :=
  backend.smap st.scaleDomain (st.transform v)

/-- `ScaleDef.getTicks`: per tick `{text, tickValue, value}` as a triple
(formatted text, raw tick value, mapped value). -/
def scaleDefGetTicks (backend : ScaleBackend) (st : ScaleDefState) :
    List (String × ℚ × ℚ) :=
  st.tickValues.map (fun v => (scaleDefGetText st v, v, scaleDefMap backend st v))

/-- Modelled from the spec: the linear scale's mapping, domain endpoints to
range [0, 1] (the round-trip property of spec section 8 pins `map(d0) =
range.start`, `map(dl) = range.end`, affine in between). -/
def linearMap (domain : List ℚ) (v : ℚ) : ℚ :=
  (v - domain.head?.getD 0) / (domain.getLast?.getD 0 - domain.head?.getD 0)

/-- A concrete backend: linear mapping; the default tick method returns the
domain itself (any deterministic choice works — the theorems that depend on
tick content use the explicit-`ticks` branch). -/
def linearBackend : ScaleBackend := ⟨linearMap, fun d => d⟩

theorem getLast?_set_last {α : Type} (l : List α) (x : α) (h : l ≠ []) :
    (l.set (l.length - 1) x).getLast? = some x := by
  have hlen : l.length - 1 < l.length := by
    cases l with
    | nil => exact absurd rfl h
    | cons a t => simp
  rw [List.getLast?_eq_getElem?, List.length_set]
  exact List.getElem?_set_eq_of_lt x hlen

theorem getLast?_set_len {α : Type} (l l2 : List α) (x : α)
    (hlen : l2.length = l.length) (hne : l ≠ []) :
    (l2.set (l.length - 1) x).getLast? = some x := by
  have h2 : l2 ≠ [] := by
    intro hh
    subst hh
    exact hne (List.length_eq_zero.mp hlen.symm)
  rw [show l.length - 1 = l2.length - 1 by rw [hlen]]
  exact getLast?_set_last l2 x h2

/-- `scaleDomain` of an updated scale definition is the `generateDomain`
resolution over `getOption('domain')`. -/
theorem scaleDefUpdate_scaleDomain (backend : ScaleBackend) (st : ScaleDefState)
    (upd : UpdateOpts) :
    (scaleDefUpdate backend st upd).scaleDomain =
      generateDomain (upd.transform.getD st.transform) upd.domain upd.min upd.max
        ((match upd.domain with
          | some d => some d
          | none => st.optsDomain).getD
          (if (match upd.stype with
               | some t => t != st.stype
               | none => false) = true then freshScaleDomain else st.scaleDomain)) := rfl

theorem generateDomain_getLast_truthy_max (T : ℚ → ℚ) (mn : Option ℚ) (mx : ℚ)
    (d cur : List ℚ) (hne : d ≠ []) (hmx0 : mx ≠ 0) :
    (generateDomain T (some d) mn (some mx) cur).getLast? = some (T mx) := by
  have hmapne : d.map T ≠ [] := by simpa using hne
  have hempty : (d.map T).isEmpty = false := by
    simp [List.isEmpty_iff, hne]
  have hmx : truthyQ (some mx) = true := by simp [truthyQ, hmx0]
  unfold generateDomain
  simp only [hempty, hmx, Bool.not_false, Bool.and_self, if_true, Bool.false_eq_true,
    if_false]
  exact getLast?_set_len (d.map T) _ (T mx) (by split <;> simp) hmapne

/-- C4 counterexample: on a fresh linear scale, `update` with
`{ domain: [1, 9], min: 5 }` resolves the scale's domain to `[5, 9]` (the
truthy `min` does override the first entry) — but the options-level `min` is
then set to `1`, the first entry of the *raw* supplied domain array, not of
the resolved domain as the claim states; and `update` with
`{ domain: [3, 9], min: 0 }` performs no override at all (JS `if (min)` is
false for `0`) although the claim says every supplied `min` overrides. -/
theorem scaleDef_update_counterexample :
    (scaleDefNew linearBackend
        ⟨some "linear", none, none, some [1, 9], some 5, none, none⟩).scaleDomain =
      [5, 9] ∧
    (scaleDefNew linearBackend
        ⟨some "linear", none, none, some [1, 9], some 5, none, none⟩).optsMin =
      some 1 ∧
    (scaleDefNew linearBackend
        ⟨some "linear", none, none, some [1, 9], some 5, none, none⟩).optsMin ≠
      (scaleDefNew linearBackend
        ⟨some "linear", none, none, some [1, 9], some 5, none, none⟩).scaleDomain.head? ∧
    (scaleDefNew linearBackend
        ⟨some "linear", none, none, some [3, 9], some 0, none, none⟩).scaleDomain =
      [3, 9] ∧
    ([3, 9] : List ℚ) ≠ [0, 9] := by
  have e1 : (scaleDefNew linearBackend
      ⟨some "linear", none, none, some [1, 9], some 5, none, none⟩).scaleDomain =
      [5, 9] := by
    norm_num [scaleDefNew, scaleDefUpdate, generateDomain, initialScaleDefState,
      freshScaleDomain, truthyQ, continuousTypes]
  have e2 : (scaleDefNew linearBackend
      ⟨some "linear", none, none, some [1, 9], some 5, none, none⟩).optsMin =
      some 1 := by
    norm_num [scaleDefNew, scaleDefUpdate, generateDomain, initialScaleDefState,
      freshScaleDomain, truthyQ, continuousTypes]
  have e4 : (scaleDefNew linearBackend
      ⟨some "linear", none, none, some [3, 9], some 0, none, none⟩).scaleDomain =
      [3, 9] := by
    norm_num [scaleDefNew, scaleDefUpdate, generateDomain, initialScaleDefState,
      freshScaleDomain, truthyQ, continuousTypes]
  refine ⟨e1, e2, ?_, e4, by norm_num⟩
  rw [e1, e2]
  norm_num

/-- C4 (amended): `update` resolves the domain by transforming an explicitly
supplied domain array element-wise; an explicitly supplied *truthy*
(non-zero) `min`/`max` overrides the first/last entry of the resolved domain
with `transform(min)`/`transform(max)`, while a falsy one (such as `0`) is
ignored; afterwards, for every continuous scale type, the options-level
`min`/`max` are set to the first/last entries of `getOption('domain')` —
which is the raw explicitly supplied domain array when one was supplied, and
the resolved scale domain otherwise. -/
theorem scaleDef_update_domain_extent_spec (backend : ScaleBackend)
    (st : ScaleDefState) (upd : UpdateOpts) (d : List ℚ) (m mx : ℚ)
    (hdom : upd.domain = some d) :
    (upd.min = none → upd.max = none →
      (scaleDefUpdate backend st upd).scaleDomain =
        d.map (upd.transform.getD st.transform)) ∧
    (d ≠ [] → upd.min = some m → m ≠ 0 → upd.max = none →
      (scaleDefUpdate backend st upd).scaleDomain =
        (d.map (upd.transform.getD st.transform)).set 0
          ((upd.transform.getD st.transform) m)) ∧
    (d ≠ [] → upd.max = some mx → mx ≠ 0 →
      (scaleDefUpdate backend st upd).scaleDomain.getLast? =
        some ((upd.transform.getD st.transform) mx)) ∧
    (upd.min = some 0 → upd.max = some 0 →
      (scaleDefUpdate backend st upd).scaleDomain =
        d.map (upd.transform.getD st.transform)) ∧
    (continuousTypes.contains (upd.stype.getD st.stype) = true →
      (scaleDefUpdate backend st upd).optsMin = d.head? ∧
      (scaleDefUpdate backend st upd).optsMax = d.getLast?) := by
  refine ⟨?_, ?_, ?_, ?_, ?_⟩
  · intro hmin hmax
    rw [scaleDefUpdate_scaleDomain, hdom, hmin, hmax]
    simp [generateDomain, truthyQ]
  · intro hne hmin hm0 hmax
    have hmapne : d.map (upd.transform.getD st.transform) ≠ [] := by simpa using hne
    rw [scaleDefUpdate_scaleDomain, hdom, hmin, hmax]
    simp [generateDomain, truthyQ, hm0, List.isEmpty_iff, hmapne]
  · intro hne hmax hmx0
    rw [scaleDefUpdate_scaleDomain, hdom, hmax]
    exact generateDomain_getLast_truthy_max _ _ _ _ _ hne hmx0
  · intro hmin hmax
    rw [scaleDefUpdate_scaleDomain, hdom, hmin, hmax]
    simp [generateDomain, truthyQ]
  · intro hcont
    have hmem := List.mem_of_elem_eq_true hcont
    constructor <;> simp [scaleDefUpdate, hdom, hmem]

/-- Witness for C4 at a concrete input: updating a fresh linear scale with
`{ domain: [1, 9], min: 5 }` resolves the scale domain to `[5, 9]` and sets
the options-level min/max to `1`/`9`, the raw domain endpoints. -/
theorem scaleDef_update_domain_extent_witness :
    (scaleDefUpdate linearBackend initialScaleDefState
        ⟨some "linear", none, none, some [1, 9], some 5, none, none⟩).scaleDomain =
      [5, 9] ∧
    (scaleDefUpdate linearBackend initialScaleDefState
        ⟨some "linear", none, none, some [1, 9], some 5, none, none⟩).optsMin =
      some 1 ∧
    (scaleDefUpdate linearBackend initialScaleDefState
        ⟨some "linear", none, none, some [1, 9], some 5, none, none⟩).optsMax =
      some 9 := by
  have h := scaleDef_update_domain_extent_spec linearBackend initialScaleDefState
    ⟨some "linear", none, none, some [1, 9], some 5, none, none⟩ [1, 9] 5 0 rfl
  have hb := h.2.1 (List.cons_ne_nil _ _) rfl (by norm_num) rfl
  have he := h.2.2.2.2 (by decide)
  refine ⟨?_, ?_, ?_⟩
  · rw [hb]
    norm_num [initialScaleDefState]
  · rw [he.1]
    norm_num
  · rw [he.2]
    norm_num

/-- The re-resolution stability condition under which `update({})` is a
no-op for `getTicks`: the options-level domain (when present) coincides with
the scale's resolved domain, and the cached tick values agree with their
recomputation.  The second part holds after every `update`; the first can be
broken by an update supplying an explicit domain together with a
non-identity transform or a truthy `min`/`max` (see the C4 analysis). -/
def scaleDefConsistent (backend : ScaleBackend) (st : ScaleDefState) : Prop :=
  (∀ raw, st.optsDomain = some raw → raw = st.scaleDomain) ∧
  st.tickValues =
    (match st.optsTicks with
     | some ts => ts
     | none => backend.tickGen st.scaleDomain).map st.transform

/-- Every update (re)establishes the cached-ticks part of the stability
condition. -/
theorem scaleDefUpdate_ticks_consistent (backend : ScaleBackend)
    (st : ScaleDefState) (upd : UpdateOpts) :
    (scaleDefUpdate backend st upd).tickValues =
      (match (scaleDefUpdate backend st upd).optsTicks with
       | some ts => ts
       | none => backend.tickGen (scaleDefUpdate backend st upd).scaleDomain).map
        (scaleDefUpdate backend st upd).transform := rfl

/-- C8 (amended): `update({})` leaves the `getTicks()` output — every tick's
text, raw tick value and mapped value — unchanged on every state satisfying
the re-resolution stability condition (in particular on every state reached
without combining an explicit domain array with a non-identity transform or
a truthy min/max); without that condition `update({})` re-resolves the
domain from the raw options-level array and the output changes. -/
theorem scaleDef_update_empty_getTicks (backend : ScaleBackend)
    (st : ScaleDefState) (h : scaleDefConsistent backend st) :
    scaleDefGetTicks backend (scaleDefUpdate backend st UpdateOpts.empty) =
      scaleDefGetTicks backend st := by
  obtain ⟨hraw, htv⟩ := h
  have hdom : (scaleDefUpdate backend st UpdateOpts.empty).scaleDomain =
      st.scaleDomain := by
    rw [scaleDefUpdate_scaleDomain]
    cases hod : st.optsDomain with
    | none => simp [UpdateOpts.empty, generateDomain, truthyQ]
    | some raw =>
        have hr := hraw raw hod
        simp [UpdateOpts.empty, generateDomain, truthyQ, hr]
  have hfmt : (scaleDefUpdate backend st UpdateOpts.empty).formatter =
      st.formatter := rfl
  have htr : (scaleDefUpdate backend st UpdateOpts.empty).transform =
      st.transform := rfl
  have hot : (scaleDefUpdate backend st UpdateOpts.empty).optsTicks =
      st.optsTicks := rfl
  have hticks : (scaleDefUpdate backend st UpdateOpts.empty).tickValues =
      st.tickValues := by
    rw [scaleDefUpdate_ticks_consistent, hdom, hot, htr, htv]
  unfold scaleDefGetTicks scaleDefGetText scaleDefMap
  rw [hdom, hticks, hfmt, htr]

/-- The concrete reachable state for the C8 counterexample:
`new ScaleDef({ type: 'linear', domain: [1, 9], min: 5, ticks: [2] })`.  The
truthy `min` overrides the resolved scale domain to `[5, 9]` while the raw
options-level domain stays `[1, 9]`, so the state violates the stability
condition. -/
def c8BadState : ScaleDefState :=
  scaleDefNew linearBackend ⟨some "linear", none, none, some [1, 9], some 5, none, some [2]⟩

/-- C8 counterexample: on the reachable state above, `update({})` changes
`getTicks()`: the single tick keeps text "2" and tick value 2, but its
mapped value changes from (2-5)/(9-5) = -3/4 (domain [5, 9]) to
(2-1)/(9-1) = 1/8 (domain re-resolved to the raw [1, 9]). -/
theorem scaleDef_update_empty_changes_ticks :
    scaleDefGetTicks linearBackend
        (scaleDefUpdate linearBackend c8BadState UpdateOpts.empty) ≠
      scaleDefGetTicks linearBackend c8BadState := by
  have hR : scaleDefGetTicks linearBackend c8BadState =
      [(toString (2 : ℚ), 2, -3/4)] := by
    norm_num [c8BadState, scaleDefNew, scaleDefUpdate, scaleDefGetTicks,
      scaleDefGetText, scaleDefMap, generateDomain, initialScaleDefState,
      freshScaleDomain, truthyQ, continuousTypes, linearBackend, linearMap]
  have hL : scaleDefGetTicks linearBackend
      (scaleDefUpdate linearBackend c8BadState UpdateOpts.empty) =
      [(toString (2 : ℚ), 2, 1/8)] := by
    norm_num [c8BadState, scaleDefNew, scaleDefUpdate, scaleDefGetTicks,
      scaleDefGetText, scaleDefMap, generateDomain, initialScaleDefState,
      freshScaleDomain, truthyQ, continuousTypes, linearBackend, linearMap,
      UpdateOpts.empty]
  rw [hL, hR]
  intro hcontra
  simp only [List.cons.injEq, Prod.mk.injEq] at hcontra
  have := hcontra.1.2.2
  norm_num at this

/-- The concrete stable state for the C8 witness:
`new ScaleDef({ type: 'linear', domain: [0, 9], ticks: [0] })`. -/
def c8GoodState : ScaleDefState :=
  scaleDefNew linearBackend ⟨some "linear", none, none, some [0, 9], none, none, some [0]⟩

/-- Witness for C8: the stable concrete state satisfies the stability
condition, and `update({})` leaves its `getTicks()` output unchanged. -/
theorem scaleDef_update_empty_getTicks_witness :
    scaleDefConsistent linearBackend c8GoodState ∧
    scaleDefGetTicks linearBackend
        (scaleDefUpdate linearBackend c8GoodState UpdateOpts.empty) =
      scaleDefGetTicks linearBackend c8GoodState := by
  have h1 : c8GoodState.optsDomain = some [0, 9] := rfl
  have h2 : c8GoodState.scaleDomain = [0, 9] := by
    norm_num [c8GoodState, scaleDefNew, scaleDefUpdate, generateDomain,
      initialScaleDefState, freshScaleDomain, truthyQ]
  have hc : scaleDefConsistent linearBackend c8GoodState := by
    constructor
    · intro raw hrw
      rw [h1] at hrw
      rw [h2]
      exact (Option.some_inj.mp hrw).symm
    · norm_num [c8GoodState, scaleDefNew, scaleDefUpdate, initialScaleDefState]
  exact ⟨hc, scaleDef_update_empty_getTicks linearBackend c8GoodState hc⟩

end G2
